import Mathlib

/-!
# Verification of the flash-todo task query engine

A shallow embedding, in Lean 4, of the task filtering / sorting / statistics
logic of the flash-todo repository, together with proofs and refutations of
the properties its specification states about that logic.

The embedded source functions are:
* `DataUtils.calculate_stats`  (src/flash-todo/utils.py, lines 147-176)
* `DataUtils.sort_todos`       (src/flash-todo/utils.py, lines 179-193)
* `DataUtils.filter_todos`     (src/flash-todo/utils.py, lines 196-228)
* `DateTimeUtils.parse_datetime` (src/flash-todo/utils.py, lines 50-70)
* `Todo.mark_completed` / `Todo.mark_incomplete` and the column defaults of
  the `Todo` model (src/flash-todo/models.py).

Modelling conventions:
* Timestamps (`datetime` values) are modelled as naturals via the
  order-preserving encoding `dayIndex * 86400 + secondOfDay` where
  `dayIndex = (year * 13 + month) * 32 + day`; the calendar date of an
  instant is recovered by integer division by `86400`.  Nullable datetime
  columns become `Option Nat`.  `datetime.min` / `datetime.max` (used by
  `sort_todos` as substitute keys for nulls) are modelled as the `⊥` / `↑⊤`
  elements of `WithBot (WithTop Nat)`, strictly below / above every encoded
  instant.
* Python floats are modelled as exact rationals; `round(x, 1)` becomes
  round-half-to-even at one decimal digit (`pyRound1`).
* `Todo.tags` stores a JSON-encoded list of strings; it is modelled already
  decoded, as `Option (List String)`.
* Python's `sorted(key=k, reverse=r)` is a stable sort; it is modelled as
  insertion sort with the comparator induced by the key (`pySorted`), which
  produces the identical (unique) stable result.
-/

namespace FlashTodo

/-- Instants, encoded order-preservingly as naturals (see the header). -/
abbrev Time := Nat

/-- Seconds in a day; `dayOf` recovers the calendar-date index of an instant. -/
def secondsPerDay : Nat := 86400

/-- The calendar date (day index) an instant falls on, as in `created_at.date()`. -/
def dayOf (t : Time) : Nat := t / secondsPerDay

/-- The `Todo` model of src/flash-todo/models.py: one row of the `todos`
table.  Nullable columns are `Option`s; `tags` is the decoded JSON list. -/
structure Todo where
  id : Nat := 0
  content : String := ""
  completed : Bool := false
  created_at : Option Time := none
  completed_at : Option Time := none
  priority : String := "medium"
  due_date : Option Time := none
  tags : Option (List String) := none
  notes : Option String := none
  category : Option String := none
  estimated_time : Option Nat := none
  actual_time : Option Nat := none
deriving Repr, DecidableEq

/-- `Todo.is_overdue` (models.py): true when there is a due date, the task is
not completed, and the current instant is past the due date. -/
def is_overdue (now : Time) (t : Todo) : Bool :=
  match t.due_date with
  | some d => !t.completed && decide (d < now)
  | none => false

/-- Round-half-to-even at one decimal digit: the behaviour of Python's
`round(x, 1)`, with the float modelled as an exact rational. -/
def pyRound1 (q : ℚ) : ℚ :=
  let t : ℚ := q * 10
  let f : ℤ := ⌊t⌋
  let r : ℚ := t - f
  if r < 1 / 2 then (f : ℚ) / 10
  else if 1 / 2 < r then ((f + 1 : ℤ) : ℚ) / 10
  else if f % 2 = 0 then (f : ℚ) / 10 else ((f + 1 : ℤ) : ℚ) / 10

/-- The record returned by `DataUtils.calculate_stats`. -/
structure Stats where
  total : Nat
  completed : Nat
  pending : Nat
  completion_rate : ℚ
  priority_high : Nat
  priority_medium : Nat
  priority_low : Nat
  overdue : Nat
  today_todos : Nat
deriving Repr, DecidableEq

/-- `DataUtils.calculate_stats` (utils.py lines 147-176).  `now` is the
ambient `datetime.utcnow()` used by the overdue and today counts. -/
def calculate_stats (now : Time) (todos : List Todo) : Stats :=
  let total := todos.length
  let completed := todos.countP (fun t => t.completed)
  let pending := total - completed
  let completion_rate :=
    pyRound1 (if 0 < total then (completed : ℚ) / (total : ℚ) * 100 else 0)
  { total := total
    completed := completed
    pending := pending
    completion_rate := completion_rate
    priority_high := todos.countP (fun t => t.priority == "high")
    priority_medium := todos.countP (fun t => t.priority == "medium")
    priority_low := todos.countP (fun t => t.priority == "low")
    overdue := todos.countP (fun t => is_overdue now t)
    today_todos :=
      todos.countP (fun t =>
        match t.created_at with
        | some c => dayOf c == dayOf now
        | none => false) }

/-! ## Sorting (`DataUtils.sort_todos`) -/

/-- Key space for `sort_todos`: encoded instants extended with `⊥`
(`datetime.min`) and `↑⊤` (`datetime.max`). -/
abbrev SortKey := WithBot (WithTop Nat)

/-- An ordinary (non-extreme) key value. -/
def natKey (n : Nat) : SortKey := ((n : WithTop Nat) : SortKey)

/-- `datetime.min`, used by the `created_at` branch for null timestamps. -/
def dtMin : SortKey := ⊥

/-- `datetime.max`, used by the `due_date` branch for null due dates. -/
def dtMax : SortKey := ((⊤ : WithTop Nat) : SortKey)

/-- `priority_order.get(x.priority, 2)` with
`priority_order = {'high': 1, 'medium': 2, 'low': 3}` (utils.py line 184). -/
def priorityOrderGet (p : String) : Nat :=
  if p = "high" then 1
  else if p = "medium" then 2
  else if p = "low" then 3
  else 2

/-- Sort key of the `priority` branch of `sort_todos`. -/
def priorityKey (t : Todo) : SortKey := natKey (priorityOrderGet t.priority)

/-- Sort key of the `created_at` branch: `x.created_at or datetime.min`. -/
def createdKey (t : Todo) : SortKey :=
  match t.created_at with
  | some d => natKey d
  | none => dtMin

/-- Sort key of the `due_date` branch: `x.due_date or datetime.max`. -/
def dueKey (t : Todo) : SortKey :=
  match t.due_date with
  | some d => natKey d
  | none => dtMax

/-- Sort key of the `completed` branch (`False < True` as `0 < 1`). -/
def completedKey (t : Todo) : SortKey :=
  natKey (if t.completed then 1 else 0)

/-- `str.lower()` of one character.  ASCII lowering suffices here: the result
is only ever compared with the ASCII literal `"desc"`, and no non-ASCII
character lowercases to a plain ASCII letter of that word. -/
def lowerChar (c : Char) : Char :=
  if 'A' ≤ c ∧ c ≤ 'Z' then Char.ofNat (c.toNat + 32) else c

/-- `str.lower()`. -/
def strLower (s : String) : String := ⟨s.data.map lowerChar⟩

/-- Python's `sorted(l, key=key, reverse=rev)`: the unique stable sort for
the comparator induced by `key` (reversed comparator when `rev`), realised
as insertion sort. -/
def pySorted {α : Type} {κ : Type} [LinearOrder κ] (key : α → κ) (rev : Bool)
    (l : List α) : List α :=
  if rev then List.insertionSort (fun a b => key b ≤ key a) l
  else List.insertionSort (fun a b => key a ≤ key b) l

/-- `DataUtils.sort_todos` (utils.py lines 179-193): dispatch on the sort
key, with `reverse = (order.lower() == 'desc')`; unknown keys return the
input unchanged. -/
def sort_todos (todos : List Todo) (sort_by : String) (ord : String) :
    List Todo :=
  let reverse := strLower ord == "desc"
  if sort_by = "priority" then pySorted priorityKey reverse todos
  else if sort_by = "created_at" then pySorted createdKey reverse todos
  else if sort_by = "due_date" then pySorted dueKey reverse todos
  else if sort_by = "completed" then pySorted completedKey reverse todos
  else todos

/-- The key `sort_todos` sorts by for a given `sort_by` value (a dummy
constant for unknown keys, where no sorting happens). -/
def keyOf (sort_by : String) (t : Todo) : SortKey :=
  if sort_by = "priority" then priorityKey t
  else if sort_by = "created_at" then createdKey t
  else if sort_by = "due_date" then dueKey t
  else if sort_by = "completed" then completedKey t
  else dtMin

/-! ## Date-string parsing (`DateTimeUtils.parse_datetime`)

`parse_datetime` tries `datetime.strptime` with six fixed formats.  The
embedding reproduces CPython's `_strptime` field patterns for the
directives these formats use: `%Y` is exactly four digits, `%m`/`%d` are
one or two digits with the leading-digit constraints of the patterns
`1[0-2]|0[1-9]|[1-9]` and `3[01]|[1-2]\d|0[1-9]|[1-9]`, `%H` is
`2[0-3]|[0-1]\d|\d`, and `%M`/`%S` are `[0-5]\d|\d` (a seconds field of 60
or 61 passes the pattern but is then rejected by the `datetime` constructor,
so it fails the format either way); the regex must consume the whole string.
The subsequent `datetime(...)` construction additionally requires
`year ≥ 1` and a day that exists in the given month. -/

/-- Numeric value of a digit character. -/
def digitVal (c : Char) : Nat := c.toNat - 48

/-- Gregorian leap-year test, as in Python's `calendar`/`datetime`. -/
def isLeapYear (y : Nat) : Bool :=
  y % 4 == 0 && (y % 100 != 0 || y % 400 == 0)

/-- Number of days in a month, used by the `datetime` constructor's
day-of-month validation. -/
def daysInMonth (y m : Nat) : Nat :=
  if m = 2 then (if isLeapYear y then 29 else 28)
  else if m = 4 ∨ m = 6 ∨ m = 9 ∨ m = 11 then 30
  else 31

/-- Match a one- or two-digit numeric field, preferring two digits exactly
when the two-digit reading satisfies `valid2` (the two-digit alternatives of
the CPython pattern), falling back to a single digit satisfying `valid1`. -/
def parseField2or1 (valid2 : Nat → Bool) (valid1 : Nat → Bool) :
    List Char → Option (Nat × List Char)
  | c1 :: c2 :: rest =>
    if c1.isDigit && c2.isDigit && valid2 (digitVal c1 * 10 + digitVal c2) then
      some (digitVal c1 * 10 + digitVal c2, rest)
    else if c1.isDigit && valid1 (digitVal c1) then
      some (digitVal c1, c2 :: rest)
    else none
  | [c1] =>
    if c1.isDigit && valid1 (digitVal c1) then some (digitVal c1, []) else none
  | [] => none

/-- Match `%Y`: exactly four digits. -/
def parseYear4 : List Char → Option (Nat × List Char)
  | c1 :: c2 :: c3 :: c4 :: rest =>
    if c1.isDigit && c2.isDigit && c3.isDigit && c4.isDigit then
      some (((digitVal c1 * 10 + digitVal c2) * 10 + digitVal c3) * 10
              + digitVal c4, rest)
    else none
  | _ => none

/-- Match one literal character. -/
def expectChar (c : Char) : List Char → Option (List Char)
  | d :: rest => if d = c then some rest else none
  | [] => none

/-- The order-preserving encoding of a calendar datetime as an instant
(see the header comment). -/
def encodeDT (y mo d h mi s : Nat) : Time :=
  ((y * 13 + mo) * 32 + d) * secondsPerDay + (h * 3600 + mi * 60 + s)

/-- `datetime.strptime` for one of the six formats of `parse_datetime`:
year-`sep`-month-`sep`-day, optionally followed by `" H:M"` and `":S"`. -/
def strptimeFmt (sep : Char) (withTime : Bool) (withSec : Bool)
    (s : String) : Option Time := do
  let (y, cs) ← parseYear4 s.toList
  let cs ← expectChar sep cs
  let (mo, cs) ← parseField2or1 (fun v => 1 ≤ v && v ≤ 12) (fun v => 1 ≤ v) cs
  let cs ← expectChar sep cs
  let (d, cs) ← parseField2or1 (fun v => 1 ≤ v && v ≤ 31) (fun v => 1 ≤ v) cs
  let (h, mi, sec, cs) ←
    if withTime then do
      let cs ← expectChar ' ' cs
      let (h, cs) ← parseField2or1 (fun v => v ≤ 23) (fun _ => true) cs
      let cs ← expectChar ':' cs
      let (mi, cs) ← parseField2or1 (fun v => v ≤ 59) (fun _ => true) cs
      if withSec then do
        let cs ← expectChar ':' cs
        let (sec, cs) ← parseField2or1 (fun v => v ≤ 59) (fun _ => true) cs
        pure (h, mi, sec, cs)
      else pure (h, mi, 0, cs)
    else pure (0, 0, 0, cs)
  if cs.isEmpty && decide (1 ≤ y) && decide (d ≤ daysInMonth y mo) then
    some (encodeDT y mo d h mi sec)
  else none

/-- `DateTimeUtils.parse_datetime` (utils.py lines 50-70): try the six
formats in order, returning the first success, else `None`. -/
def parse_datetime (date_str : String) : Option Time :=
  ((((((strptimeFmt '-' true true date_str).orElse fun _ =>
        strptimeFmt '-' true false date_str).orElse fun _ =>
        strptimeFmt '-' false false date_str).orElse fun _ =>
        strptimeFmt '/' true true date_str).orElse fun _ =>
        strptimeFmt '/' true false date_str).orElse fun _ =>
        strptimeFmt '/' false false date_str)

/-! ## Filtering (`DataUtils.filter_todos`) -/

/-- The filter dictionary accepted by `filter_todos`; an absent key is
`none`.  The date bounds are raw strings, parsed by `parse_datetime` at
filter time, exactly as in the source. -/
structure Filters where
  completed : Option Bool := none
  priority : Option String := none
  category : Option String := none
  tags : Option (List String) := none
  date_from : Option String := none
  date_to : Option String := none
deriving Repr, DecidableEq

/-- `DataUtils.filter_todos` (utils.py lines 196-228): the six successive
narrowing passes of the source, in source order. -/
def filter_todos (todos : List Todo) (filters : Filters) : List Todo :=
  let filtered := todos
  -- if 'completed' in filters: [t for t in filtered if t.completed == filters['completed']]
  let filtered :=
    match filters.completed with
    | some c => filtered.filter (fun t => t.completed == c)
    | none => filtered
  -- if 'priority' in filters: [t for t in filtered if t.priority == filters['priority']]
  let filtered :=
    match filters.priority with
    | some p => filtered.filter (fun t => t.priority == p)
    | none => filtered
  -- if 'category' in filters: [t for t in filtered if t.category == filters['category']]
  let filtered :=
    match filters.category with
    | some c => filtered.filter (fun t => t.category == some c)
    | none => filtered
  -- if 'tags' in filters: for tag in filters['tags']:
  --   [t for t in filtered if t.tags and tag in json.loads(t.tags)]
  let filtered :=
    match filters.tags with
    | some tl =>
      tl.foldl
        (fun acc tag =>
          acc.filter (fun t =>
            match t.tags with
            | some ts => ts.contains tag
            | none => false))
        filtered
    | none => filtered
  -- if 'date_from' in filters: parse; if it parsed,
  --   [t for t in filtered if t.created_at and t.created_at >= date_from]
  let filtered :=
    match filters.date_from with
    | some s =>
      match parse_datetime s with
      | some d =>
        filtered.filter (fun t =>
          match t.created_at with
          | some c => decide (d ≤ c)
          | none => false)
      | none => filtered
    | none => filtered
  -- if 'date_to' in filters: parse; if it parsed,
  --   [t for t in filtered if t.created_at and t.created_at <= date_to]
  let filtered :=
    match filters.date_to with
    | some s =>
      match parse_datetime s with
      | some d =>
        filtered.filter (fun t =>
          match t.created_at with
          | some c => decide (c ≤ d)
          | none => false)
      | none => filtered
    | none => filtered
  filtered

/-- Spec predicate (§4.1): completion state (boolean equality); trivially
true when not supplied. -/
def predCompleted (o : Option Bool) (t : Todo) : Bool :=
  match o with
  | some c => t.completed == c
  | none => true

/-- Spec predicate (§4.1): priority equality; trivially true when not
supplied. -/
def predPriority (o : Option String) (t : Todo) : Bool :=
  match o with
  | some p => t.priority == p
  | none => true

/-- Spec predicate (§4.1): category label equality; trivially true when not
supplied. -/
def predCategory (o : Option String) (t : Todo) : Bool :=
  match o with
  | some c => t.category == some c
  | none => true

/-- Spec predicate (§4.1): tag membership — every requested tag is present
in the task's tag set; trivially true when not supplied. -/
def predTags (o : Option (List String)) (t : Todo) : Bool :=
  match o with
  | some tl =>
    tl.all (fun tag =>
      match t.tags with
      | some ts => ts.contains tag
      | none => false)
  | none => true

/-- Spec predicate (§4.1): inclusive lower creation-date bound; a bound
whose value does not parse as a date supplies no predicate. -/
def predDateFrom (o : Option String) (t : Todo) : Bool :=
  match o with
  | some s =>
    match parse_datetime s with
    | some d =>
      match t.created_at with
      | some c => decide (d ≤ c)
      | none => false
    | none => true
  | none => true

/-- Spec predicate (§4.1): inclusive upper creation-date bound; a bound
whose value does not parse as a date supplies no predicate. -/
def predDateTo (o : Option String) (t : Todo) : Bool :=
  match o with
  | some s =>
    match parse_datetime s with
    | some d =>
      match t.created_at with
      | some c => decide (c ≤ d)
      | none => false
    | none => true
  | none => true

/-- Written from the spec's words (§4.1): a task satisfies a filter set when
it satisfies every supplied predicate — completion-state equality, priority
equality, category equality, membership of every requested tag in the task's
tag set, and creation date within the inclusive bounds.  The predicates
combine with logical AND. -/
def satisfiesFilters (filters : Filters) (t : Todo) : Bool :=
  predCompleted filters.completed t &&
  predPriority filters.priority t &&
  predCategory filters.category t &&
  predTags filters.tags t &&
  predDateFrom filters.date_from t &&
  predDateTo filters.date_to t

/-! ## The completion state machine (`Todo.mark_completed` /
`Todo.mark_incomplete`, models.py lines 57-65, and task creation) -/

/-- `Todo.mark_completed`: set `completed` and stamp `completed_at` with the
current instant. -/
def mark_completed (now : Time) (t : Todo) : Todo :=
  { t with completed := true, completed_at := some now }

/-- `Todo.mark_incomplete`: clear `completed` and null `completed_at`. -/
def mark_incomplete (t : Todo) : Todo :=
  { t with completed := false, completed_at := none }

/-- A freshly created task (`TodoService.create_todo` plus the column
defaults of models.py): `completed` defaults to `False`, `completed_at` to
null, `created_at` to the current instant. -/
def createTodo (now : Time) (content : String) (priority : String)
    (due : Option Time) (tags : Option (List String)) (notes : Option String)
    (category : Option String) (est : Option Nat) : Todo :=
  { content := content
    completed := false
    created_at := some now
    completed_at := none
    priority := priority
    due_date := due
    tags := tags
    notes := notes
    category := category
    estimated_time := est }

/-- Task states reachable through creation, marking completed and marking
incomplete. -/
inductive Reachable : Todo → Prop
  | create (now : Time) (content priority : String) (due : Option Time)
      (tags : Option (List String)) (notes category : Option String)
      (est : Option Nat) :
      Reachable (createTodo now content priority due tags notes category est)
  | complete (t : Todo) (now : Time) :
      Reachable t → Reachable (mark_completed now t)
  | incomplete (t : Todo) :
      Reachable t → Reachable (mark_incomplete t)

/-! ## Concrete tasks and filter sets used by the refutations -/

/-- A medium-priority task created at instant 5. -/
def tMed5 : Todo := { id := 1, content := "a", created_at := some 5 }

/-- A medium-priority task created at instant 3. -/
def tMed3 : Todo := { id := 2, content := "b", created_at := some 3 }

/-- A task with a due date. -/
def tDue5 : Todo := { id := 3, content := "c", due_date := some 5 }

/-- A task with no due date. -/
def tNoDue : Todo := { id := 4, content := "d", due_date := none }

/-- A high-priority task. -/
def tHigh : Todo := { id := 5, content := "e", priority := "high" }

/-- A task with the unrecognized priority value `"urgent"`. -/
def tUrgent : Todo := { id := 6, content := "f", priority := "urgent" }

/-- A filter set whose priority predicate carries the unrecognized value
`"urgent"`. -/
def urgentFilter : Filters := { priority := some "urgent" }

/-- The empty filter set (no predicate supplied). -/
def noFilters : Filters := {}

/-- The property the specification asserts of a priority sort: tasks of
equal priority appear in `created_at`-ascending order. -/
def tiesByCreatedAsc (l : List Todo) : Prop :=
  l.Pairwise (fun a b =>
    priorityOrderGet a.priority = priorityOrderGet b.priority →
      createdKey a ≤ createdKey b)

/-- The property the specification asserts of a due-date sort: every task
with a null due date comes after all tasks with a non-null one. -/
def nullsDueLast (l : List Todo) : Prop :=
  l.Pairwise (fun a b => a.due_date = none → b.due_date = none)

/-! ## Helper lemmas on the stable sort -/

theorem natKey_le_natKey {m n : Nat} : natKey m ≤ natKey n ↔ m ≤ n := by
  simp [natKey]

theorem pySorted_perm {α κ : Type} [LinearOrder κ] (key : α → κ) (rev : Bool)
    (l : List α) : (pySorted key rev l).Perm l := by
  unfold pySorted
  cases rev <;> simp only [Bool.false_eq_true, if_false, if_true] <;>
    exact List.perm_insertionSort _ _

theorem pySorted_pairwise_asc {α κ : Type} [LinearOrder κ] (key : α → κ)
    (l : List α) : (pySorted key false l).Pairwise (fun a b => key a ≤ key b) := by
  haveI : IsTotal α (fun a b => key a ≤ key b) := ⟨fun a b => le_total _ _⟩
  haveI : IsTrans α (fun a b => key a ≤ key b) :=
    ⟨fun _ _ _ h h' => le_trans h h'⟩
  simpa [pySorted] using List.sorted_insertionSort (fun a b => key a ≤ key b) l

theorem pySorted_pairwise_desc {α κ : Type} [LinearOrder κ] (key : α → κ)
    (l : List α) : (pySorted key true l).Pairwise (fun a b => key b ≤ key a) := by
  haveI : IsTotal α (fun a b => key b ≤ key a) := ⟨fun a b => le_total _ _⟩
  haveI : IsTrans α (fun a b => key b ≤ key a) :=
    ⟨fun _ _ _ h h' => le_trans h' h⟩
  simpa [pySorted] using List.sorted_insertionSort (fun a b => key b ≤ key a) l

theorem filter_orderedInsert {α κ : Type} [LinearOrder κ] (key : α → κ)
    (r : α → α → Prop) [DecidableRel r]
    (hr : ∀ a b, ¬ r a b → key b ≠ key a) (v : κ) (a : α) (l : List α) :
    (List.orderedInsert r a l).filter (fun x => decide (key x = v)) =
      if key a = v then a :: l.filter (fun x => decide (key x = v))
      else l.filter (fun x => decide (key x = v)) := by
  induction l with
  | nil =>
    by_cases hv : key a = v <;> simp [List.orderedInsert, hv]
  | cons b l ih =>
    rw [List.orderedInsert]
    by_cases hab : r a b
    · rw [if_pos hab]
      by_cases hv : key a = v <;> simp [List.filter_cons, hv]
    · rw [if_neg hab]
      have hb : key b ≠ key a := hr a b hab
      by_cases hv : key a = v
      · have hbv : key b ≠ v := hv ▸ hb
        simp [List.filter_cons, hbv, ih, hv]
      · by_cases hbv : key b = v <;> simp [List.filter_cons, hbv, ih, hv]

theorem filter_insertionSort {α κ : Type} [LinearOrder κ] (key : α → κ)
    (r : α → α → Prop) [DecidableRel r]
    (hr : ∀ a b, ¬ r a b → key b ≠ key a) (v : κ) (l : List α) :
    (List.insertionSort r l).filter (fun x => decide (key x = v)) =
      l.filter (fun x => decide (key x = v)) := by
  induction l with
  | nil => rfl
  | cons a l ih =>
    rw [List.insertionSort, filter_orderedInsert key r hr v a _, ih]
    by_cases hv : key a = v <;> simp [List.filter_cons, hv]

theorem pySorted_filterKey {α κ : Type} [LinearOrder κ] (key : α → κ)
    (rev : Bool) (v : κ) (l : List α) :
    (pySorted key rev l).filter (fun x => decide (key x = v)) =
      l.filter (fun x => decide (key x = v)) := by
  unfold pySorted
  cases rev <;> simp only [Bool.false_eq_true, if_false, if_true]
  · exact filter_insertionSort key _
      (fun a b h => ne_of_lt (lt_of_not_le h)) v l
  · exact filter_insertionSort key _
      (fun a b h => ne_of_gt (lt_of_not_le h)) v l

/-! ## Helper lemmas on filtering -/

theorem foldl_filter_all {α β : Type} (p : β → α → Bool) (tl : List β)
    (l : List α) :
    tl.foldl (fun acc tag => acc.filter (p tag)) l =
      l.filter (fun t => tl.all (fun tag => p tag t)) := by
  induction tl generalizing l with
  | nil => simp
  | cons tg tl ih =>
    rw [List.foldl_cons, ih, List.filter_filter]
    refine List.filter_congr (fun a _ => ?_)
    simp only [List.all_cons]
    cases p tg a <;> simp

theorem optFilterCompleted (o : Option Bool) (l : List Todo) :
    (match o with
     | some c => l.filter (fun t => t.completed == c)
     | none => l) = l.filter (predCompleted o) := by
  cases o with
  | none => exact (List.filter_true l).symm
  | some c => rfl

theorem optFilterPriority (o : Option String) (l : List Todo) :
    (match o with
     | some p => l.filter (fun t => t.priority == p)
     | none => l) = l.filter (predPriority o) := by
  cases o with
  | none => exact (List.filter_true l).symm
  | some p => rfl

theorem optFilterCategory (o : Option String) (l : List Todo) :
    (match o with
     | some c => l.filter (fun t => t.category == some c)
     | none => l) = l.filter (predCategory o) := by
  cases o with
  | none => exact (List.filter_true l).symm
  | some c => rfl

theorem optFilterDateFrom (o : Option String) (l : List Todo) :
    (match o with
     | some s =>
       match parse_datetime s with
       | some d =>
         l.filter (fun t =>
           match t.created_at with
           | some c => decide (d ≤ c)
           | none => false)
       | none => l
     | none => l) = l.filter (predDateFrom o) := by
  rcases o with _ | s
  · exact (List.filter_true l).symm
  · show (match parse_datetime s with
      | some d =>
        l.filter (fun t =>
          match t.created_at with
          | some c => decide (d ≤ c)
          | none => false)
      | none => l) = l.filter (predDateFrom (some s))
    rcases h : parse_datetime s with _ | d
    · have hp : predDateFrom (some s) = fun _ => true := by
        funext u
        simp [predDateFrom, h]
      rw [hp, List.filter_true]
    · have hp : predDateFrom (some s) = fun t =>
          match t.created_at with
          | some c => decide (d ≤ c)
          | none => false := by
        funext u
        rcases hu : u.created_at with _ | c <;> simp [predDateFrom, h, hu]
      rw [hp]

theorem optFilterDateTo (o : Option String) (l : List Todo) :
    (match o with
     | some s =>
       match parse_datetime s with
       | some d =>
         l.filter (fun t =>
           match t.created_at with
           | some c => decide (c ≤ d)
           | none => false)
       | none => l
     | none => l) = l.filter (predDateTo o) := by
  rcases o with _ | s
  · exact (List.filter_true l).symm
  · show (match parse_datetime s with
      | some d =>
        l.filter (fun t =>
          match t.created_at with
          | some c => decide (c ≤ d)
          | none => false)
      | none => l) = l.filter (predDateTo (some s))
    rcases h : parse_datetime s with _ | d
    · have hp : predDateTo (some s) = fun _ => true := by
        funext u
        simp [predDateTo, h]
      rw [hp, List.filter_true]
    · have hp : predDateTo (some s) = fun t =>
          match t.created_at with
          | some c => decide (c ≤ d)
          | none => false := by
        funext u
        rcases hu : u.created_at with _ | c <;> simp [predDateTo, h, hu]
      rw [hp]

theorem optFilterTags (o : Option (List String)) (l : List Todo) :
    (match o with
     | some tl =>
       tl.foldl
         (fun acc tag =>
           acc.filter (fun t =>
             match t.tags with
             | some ts => ts.contains tag
             | none => false))
         l
     | none => l) = l.filter (predTags o) := by
  cases o with
  | none => exact (List.filter_true l).symm
  | some tl => exact foldl_filter_all _ tl l

theorem filter_todos_eq_filter (todos : List Todo) (fs : Filters) :
    filter_todos todos fs = todos.filter (satisfiesFilters fs) := by
  dsimp only [filter_todos]
  rw [optFilterDateTo fs.date_to, optFilterDateFrom fs.date_from,
    optFilterTags fs.tags, optFilterCategory fs.category,
    optFilterPriority fs.priority, optFilterCompleted fs.completed]
  simp only [List.filter_filter]
  refine List.filter_congr (fun t _ => ?_)
  simp only [satisfiesFilters]
  simp only [Bool.and_assoc, Bool.and_comm, Bool.and_left_comm]

/-! ## Further sorting helpers -/

theorem sort_todos_priority (todos : List Todo) (ord : String) :
    sort_todos todos "priority" ord =
      pySorted priorityKey (strLower ord == "desc") todos := by
  simp [sort_todos]

theorem sort_todos_due (todos : List Todo) (ord : String) :
    sort_todos todos "due_date" ord =
      pySorted dueKey (strLower ord == "desc") todos := by
  simp [sort_todos]

theorem dueKey_eq_dtMax_iff (t : Todo) : dueKey t = dtMax ↔ t.due_date = none := by
  rcases h : t.due_date with _ | d <;> simp [dueKey, h, natKey, dtMax]

theorem dtMax_le_iff (x : SortKey) : dtMax ≤ x ↔ x = dtMax := by
  have h : dtMax = (⊤ : SortKey) := rfl
  rw [h]
  exact top_le_iff

/-! ## Claims about sorting -/

/-- C2 (corrected): sorting by `priority` orders tasks by the key
`high ↦ 1, medium ↦ 2, low ↦ 3` — nondecreasing under ascending order
(so `high` first) and nonincreasing under descending order — and tasks of
equal priority keep their relative order from the input (stability), in
both directions.  The tie between equal priorities is NOT broken by
`created_at` (see the counterexample). -/
theorem claim_C2 (todos : List Todo) (ord : String) :
    ((sort_todos todos "priority" ord).Pairwise (fun a b =>
        if strLower ord == "desc" then
          priorityOrderGet b.priority ≤ priorityOrderGet a.priority
        else priorityOrderGet a.priority ≤ priorityOrderGet b.priority)) ∧
    ∀ v : SortKey,
      (sort_todos todos "priority" ord).filter
          (fun t => decide (priorityKey t = v)) =
        todos.filter (fun t => decide (priorityKey t = v)) := by
  constructor
  · rw [sort_todos_priority]
    cases hrev : (strLower ord == "desc")
    · refine (pySorted_pairwise_asc priorityKey todos).imp ?_
      intro a b hab
      simpa using natKey_le_natKey.mp hab
    · refine (pySorted_pairwise_desc priorityKey todos).imp ?_
      intro a b hab
      simpa using natKey_le_natKey.mp hab
  · intro v
    rw [sort_todos_priority]
    exact pySorted_filterKey priorityKey _ v todos

/-- C2, counterexample to the claim as stated: sorting two medium-priority
tasks whose creation order is the reverse of their `created_at` order keeps
the input order, so equal-priority tasks are NOT ordered by `created_at`
ascending. -/
theorem claim_C2_cex :
    ¬ tiesByCreatedAsc (sort_todos [tMed5, tMed3] "priority" "asc") := by
  have h : sort_todos [tMed5, tMed3] "priority" "asc" = [tMed5, tMed3] := by
    decide
  rw [h, tiesByCreatedAsc]
  simp only [List.pairwise_cons]
  intro hc
  have h1 := (hc.1 tMed3 (by simp)) (by decide)
  revert h1
  decide

/-- C3 (corrected): for both directions, `sort_todos` with key `due_date`
sorts a null due date as if it were the maximum possible value
(`datetime.max`): under ascending order every null-due task comes after all
non-null ones, but under descending order it comes BEFORE all non-null
ones, contrary to the claim's "regardless of direction". -/
theorem claim_C3 (todos : List Todo) (ord : String) :
    (sort_todos todos "due_date" ord).Pairwise (fun a b =>
      if strLower ord == "desc" then (b.due_date = none → a.due_date = none)
      else (a.due_date = none → b.due_date = none)) := by
  rw [sort_todos_due]
  cases hrev : (strLower ord == "desc")
  · refine (pySorted_pairwise_asc dueKey todos).imp ?_
    intro a b hab
    simp only [Bool.false_eq_true, if_false]
    intro ha
    have h1 : dueKey a = dtMax := (dueKey_eq_dtMax_iff a).mpr ha
    exact (dueKey_eq_dtMax_iff b).mp ((dtMax_le_iff _).mp (h1 ▸ hab))
  · refine (pySorted_pairwise_desc dueKey todos).imp ?_
    intro a b hab
    simp only [if_true]
    intro hb
    have h1 : dueKey b = dtMax := (dueKey_eq_dtMax_iff b).mpr hb
    exact (dueKey_eq_dtMax_iff a).mp ((dtMax_le_iff _).mp (h1 ▸ hab))

/-- C3, counterexample to the claim as stated: under descending order the
task with no due date is placed first, not after the task with one. -/
theorem claim_C3_cex :
    ¬ nullsDueLast (sort_todos [tDue5, tNoDue] "due_date" "desc") := by
  have h : sort_todos [tDue5, tNoDue] "due_date" "desc" = [tNoDue, tDue5] := by
    decide
  rw [h, nullsDueLast]
  simp only [List.pairwise_cons]
  intro hc
  have h1 := (hc.1 tDue5 (by simp)) (by decide)
  revert h1
  decide

/-- C7 (confirmed): `sort_todos` is stable for every sort key and direction:
for each key value `v`, the subsequence of tasks whose sort key equals `v`
is exactly the input's subsequence with that key, in the input's order. -/
theorem claim_C7 (todos : List Todo) (sort_by ord : String) (v : SortKey) :
    (sort_todos todos sort_by ord).filter
        (fun t => decide (keyOf sort_by t = v)) =
      todos.filter (fun t => decide (keyOf sort_by t = v)) := by
  by_cases h1 : sort_by = "priority"
  · subst h1
    have hk : keyOf "priority" = priorityKey := by
      funext t
      simp [keyOf]
    rw [hk, sort_todos_priority]
    exact pySorted_filterKey priorityKey _ v todos
  by_cases h2 : sort_by = "created_at"
  · subst h2
    have hk : keyOf "created_at" = createdKey := by
      funext t
      simp [keyOf]
    have hs : sort_todos todos "created_at" ord =
        pySorted createdKey (strLower ord == "desc") todos := by
      simp [sort_todos]
    rw [hk, hs]
    exact pySorted_filterKey createdKey _ v todos
  by_cases h3 : sort_by = "due_date"
  · subst h3
    have hk : keyOf "due_date" = dueKey := by
      funext t
      simp [keyOf]
    rw [hk, sort_todos_due]
    exact pySorted_filterKey dueKey _ v todos
  by_cases h4 : sort_by = "completed"
  · subst h4
    have hk : keyOf "completed" = completedKey := by
      funext t
      simp [keyOf]
    have hs : sort_todos todos "completed" ord =
        pySorted completedKey (strLower ord == "desc") todos := by
      simp [sort_todos]
    rw [hk, hs]
    exact pySorted_filterKey completedKey _ v todos
  have hs : sort_todos todos sort_by ord = todos := by
    simp [sort_todos, h1, h2, h3, h4]
  rw [hs]

/-- C8 (confirmed): an unknown sort key returns the input unchanged, with
no error. -/
theorem claim_C8 (todos : List Todo) (ord sort_by : String)
    (h : sort_by ∉ (["priority", "created_at", "due_date", "completed"] :
        List String)) :
    sort_todos todos sort_by ord = todos := by
  simp only [List.mem_cons, List.not_mem_nil, or_false, not_or] at h
  obtain ⟨h1, h2, h3, h4⟩ := h
  simp [sort_todos, h1, h2, h3, h4]

/-- C8, witness: sorting by the unknown key `"name"` is the identity. -/
theorem claim_C8_witness : sort_todos [tMed5] "name" "asc" = [tMed5] :=
  claim_C8 [tMed5] "asc" "name" (by decide)

/-- C10 (confirmed): a task whose priority is not one of
`low`/`medium`/`high` gets the dictionary's default key `2`, the key of
`medium` priority, and a priority sort is a permutation of its input, so
the task is kept and ordered together with the medium-priority tasks. -/
theorem claim_C10 (t : Todo)
    (h : t.priority ∉ (["low", "medium", "high"] : List String))
    (todos : List Todo) (ord : String) :
    priorityOrderGet t.priority = priorityOrderGet "medium" ∧
    (sort_todos todos "priority" ord).Perm todos := by
  constructor
  · simp only [List.mem_cons, List.not_mem_nil, or_false, not_or] at h
    obtain ⟨h1, h2, h3⟩ := h
    simp [priorityOrderGet, h1, h2, h3]
  · rw [sort_todos_priority]
    exact pySorted_perm priorityKey _ todos

/-- C10, witness: the concrete priority value `"urgent"`. -/
theorem claim_C10_witness :
    priorityOrderGet tUrgent.priority = priorityOrderGet "medium" ∧
    (sort_todos [tUrgent] "priority" "asc").Perm [tUrgent] :=
  claim_C10 tUrgent (by decide) [tUrgent] "asc"

/-! ## Claims about filtering -/

/-- C5 (confirmed): `filter_todos` returns exactly the subsequence of its
input satisfying every supplied predicate — the predicates combine with
logical AND — in the input's relative order (a `List.filter`). -/
theorem claim_C5 (todos : List Todo) (fs : Filters) :
    filter_todos todos fs = todos.filter (satisfiesFilters fs) :=
  filter_todos_eq_filter todos fs

/-- C9 (confirmed): filtering twice with the same filter set equals
filtering once. -/
theorem claim_C9 (todos : List Todo) (fs : Filters) :
    filter_todos (filter_todos todos fs) fs = filter_todos todos fs := by
  rw [filter_todos_eq_filter, filter_todos_eq_filter, List.filter_filter]
  refine List.filter_congr (fun t _ => ?_)
  cases satisfiesFilters fs t <;> simp

/-- C4, counterexample to the claim as stated: the unrecognized priority
value `"urgent"` is NOT ignored — it is applied as an equality test, so a
high-priority task is filtered out instead of passed through (filtering
with the remaining, empty, predicate set keeps it). -/
theorem claim_C4_cex :
    filter_todos [tHigh] urgentFilter = [] ∧
    filter_todos [tHigh] noFilters = [tHigh] ∧
    "urgent" ∉ (["low", "medium", "high"] : List String) := by
  refine ⟨?_, ?_, by decide⟩ <;> rfl

/-- C4 (corrected): no filter predicate ever raises an error, and the only
unrecognized VALUES that are ignored (pass-through) are date bounds that
fail to parse; an unrecognized priority value is instead applied as an
ordinary equality predicate (typically selecting no task).  Unrecognized
filter KEYS are not representable in the filter record and are ignored by
construction. -/
theorem claim_C4 (todos : List Todo) (fs : Filters) (s : String) (p : String)
    (h : parse_datetime s = none) :
    filter_todos todos { fs with date_from := some s } =
        filter_todos todos { fs with date_from := none } ∧
    filter_todos todos { fs with date_to := some s } =
        filter_todos todos { fs with date_to := none } ∧
    filter_todos todos { fs with priority := some p } =
      (filter_todos todos { fs with priority := none }).filter
        (fun t => t.priority == p) := by
  refine ⟨?_, ?_, ?_⟩
  · rw [filter_todos_eq_filter, filter_todos_eq_filter]
    refine List.filter_congr (fun t _ => ?_)
    simp [satisfiesFilters, predDateFrom, h]
  · rw [filter_todos_eq_filter, filter_todos_eq_filter]
    refine List.filter_congr (fun t _ => ?_)
    simp [satisfiesFilters, predDateTo, h]
  · rw [filter_todos_eq_filter, filter_todos_eq_filter, List.filter_filter]
    refine List.filter_congr (fun t _ => ?_)
    simp only [satisfiesFilters, predPriority]
    cases predCompleted fs.completed t <;>
      cases t.priority == p <;>
        simp [Bool.and_assoc, Bool.and_comm, Bool.and_left_comm]

/-- C4, witness: the unparseable date string `"xx"` at a concrete input. -/
theorem claim_C4_witness :
    filter_todos [tHigh] { noFilters with date_from := some "xx" } =
        filter_todos [tHigh] { noFilters with date_from := none } ∧
    filter_todos [tHigh] { noFilters with date_to := some "xx" } =
        filter_todos [tHigh] { noFilters with date_to := none } ∧
    filter_todos [tHigh] { noFilters with priority := some "urgent" } =
      (filter_todos [tHigh] { noFilters with priority := none }).filter
        (fun t => t.priority == "urgent") :=
  claim_C4 [tHigh] noFilters "xx" "urgent" (by decide)

/-! ## Claims about statistics -/

/-- C1 (confirmed): in the statistics record, `pending` always equals
`total - completed`, and `completion_rate` equals `0` when `total` is zero
(the division is guarded, so no error can arise) and
`round(completed / total * 100, 1)` otherwise. -/
theorem claim_C1 (now : Time) (todos : List Todo) :
    (calculate_stats now todos).pending =
        (calculate_stats now todos).total -
          (calculate_stats now todos).completed ∧
    (calculate_stats now todos).completion_rate =
      (if (calculate_stats now todos).total = 0 then 0
       else pyRound1 (((calculate_stats now todos).completed : ℚ) /
              ((calculate_stats now todos).total : ℚ) * 100)) := by
  refine ⟨rfl, ?_⟩
  dsimp only [calculate_stats]
  by_cases h : todos.length = 0
  · rw [if_neg (show ¬ 0 < todos.length by omega), if_pos h]
    norm_num [pyRound1]
  · rw [if_pos (Nat.pos_of_ne_zero h), if_neg h]

/-! ## Claims about the completion state machine -/

/-- C6 (confirmed): in every task state reachable through creation
(`completed = False`, `completed_at = None`), `mark_completed` (sets
`completed` and stamps `completed_at`) and `mark_incomplete` (clears both),
`completed_at` is non-null exactly when `completed` is true. -/
theorem claim_C6 (t : Todo) (h : Reachable t) :
    t.completed_at ≠ none ↔ t.completed = true := by
  induction h with
  | create now content priority due tags notes category est => simp [createTodo]
  | complete t now _ _ => simp [mark_completed]
  | incomplete t _ _ => simp [mark_incomplete]

/-- C6, witness: a freshly created task. -/
theorem claim_C6_witness :
    (createTodo 0 "x" "medium" none none none none none).completed_at ≠ none ↔
      (createTodo 0 "x" "medium" none none none none none).completed = true :=
  claim_C6 _ (Reachable.create 0 "x" "medium" none none none none none)

end FlashTodo

